import Mathlib

/-!
# scrolex: `render_doc_page` (src/cpp/poppler.cc)

A shallow embedding of the interop shim `render_doc_page`.  The two external
libraries (the document renderer and the drawing library) are collaborators:
what they answer is an oracle (`Env`), what the shim asks of them is recorded,
in program order, as a list of `Event`s.  The drawing context is a small state
with a save/restore stack.  C `int` is `Int` with explicit 32-bit wrap-around
where the code multiplies; `double` constants are read as the rationals their
literals denote.
-/

namespace Scrolex

/-! ## Handles and plain data -/

/-- Address held by a `poppler::document *`. -/
abbrev DocPtr := Nat

/-- Address held by a `poppler::page *`. -/
abbrev PagePtr := Nat

/-- Address held by an `unsigned char *`. -/
abbrev BytePtr := Nat

/-- The value `poppler::image` exposes through `is_valid`, `width`, `height`,
`bytes_per_row` and `data`. -/
structure image where
  is_valid : Bool
  width : Int
  height : Int
  bytes_per_row : Int
  data : BytePtr
deriving DecidableEq, Repr

/-- The three hints of `poppler::page_renderer::render_hint` the shim sets. -/
inductive render_hint where
  | antialiasing
  | text_antialiasing
  | text_hinting
deriving DecidableEq, Repr

/-- Pixel formats of `cairo_format_t` used by the shim. -/
inductive cairo_format_t where
  | CAIRO_FORMAT_ARGB32
deriving DecidableEq, Repr

/-- Numeric value of `CAIRO_STATUS_SUCCESS` in `cairo_status_t`. -/
def CAIRO_STATUS_SUCCESS : Nat := 0

/-- What `cairo_image_surface_create_for_data` hands back: always an object,
whose status tells whether it is usable. -/
structure cairo_surface_t where
  id : Nat
  status : Nat
deriving DecidableEq, Repr

/-- Status query `cairo_surface_status`. -/
def cairo_surface_status (surface : cairo_surface_t) : Nat := surface.status

/-! ## The drawing context -/

/-- An affine transform, with the field names of `cairo_matrix_t`. -/
structure cairo_matrix_t where
  xx : ℚ
  yx : ℚ
  xy : ℚ
  yy : ℚ
  x0 : ℚ
  y0 : ℚ
deriving DecidableEq, Repr

/-- Scaling of the user-space axes: the scale is applied before the existing
transform, so the translation part is unchanged. -/
def cairo_matrix_scale (m : cairo_matrix_t) (sx sy : ℚ) : cairo_matrix_t :=
  { m with xx := sx * m.xx, yx := sx * m.yx, xy := sy * m.xy, yy := sy * m.yy }

/-- Device-space image of the user-space vector `(dx, dy)` (translation
ignored), as `cairo_matrix_transform_distance`. -/
def cairo_matrix_transform_distance (m : cairo_matrix_t) (dx dy : ℚ) : ℚ × ℚ :=
  (m.xx * dx + m.xy * dy, m.yx * dx + m.yy * dy)

/-- A surface source: the surface, its origin in user space, and the user
space in effect when it was set (the pattern is locked to it). -/
structure cairo_pattern_t where
  surface : cairo_surface_t
  x : ℚ
  y : ℚ
  user_space : cairo_matrix_t
deriving DecidableEq, Repr

/-- The part of a context that `cairo_save` / `cairo_restore` push and pop.
`source = none` is the default source. -/
structure cairo_gstate_t where
  ctm : cairo_matrix_t
  source : Option cairo_pattern_t
deriving DecidableEq, Repr

/-- A drawing context: current graphics state, the stack of saved states, and
what has been composited onto the target so far (oldest first). -/
structure cairo_t where
  gstate : cairo_gstate_t
  saved : List cairo_gstate_t
  painted : List (Option cairo_pattern_t)
deriving DecidableEq, Repr

/-- Push a copy of the current graphics state. -/
def cairo_save (cr : cairo_t) : cairo_t :=
  { cr with saved := cr.gstate :: cr.saved }

/-- Pop the most recently saved graphics state (nothing to pop: unchanged). -/
def cairo_restore (cr : cairo_t) : cairo_t :=
  match cr.saved with
  | [] => cr
  | g :: rest => { cr with gstate := g, saved := rest }

/-- Scale the current transform. -/
def cairo_scale (cr : cairo_t) (sx sy : ℚ) : cairo_t :=
  { cr with gstate := { cr.gstate with ctm := cairo_matrix_scale cr.gstate.ctm sx sy } }

/-- Make `surface`, placed at `(x, y)` of the current user space, the source. -/
def cairo_set_source_surface (cr : cairo_t) (surface : cairo_surface_t) (x y : ℚ) : cairo_t :=
  { cr with gstate := { cr.gstate with
      source := some { surface := surface, x := x, y := y, user_space := cr.gstate.ctm } } }

/-- Composite the current source everywhere onto the target. -/
def cairo_paint (cr : cairo_t) : cairo_t :=
  { cr with painted := cr.painted ++ [cr.gstate.source] }

/-! ## C integer arithmetic -/

/-- Two's-complement wrap of a mathematical integer into 32-bit `int`. -/
def wrap_int32 (x : Int) : Int := (x + 2 ^ 31) % 2 ^ 32 - 2 ^ 31

/-- The product `a * b` of two `int`s as a 32-bit `int`. -/
def int_mul (a b : Int) : Int := wrap_int32 (a * b)

/-- Conversion of an `int` to the 64-bit unsigned `size_t`. -/
def size_t_of_int (x : Int) : Nat := (x % 2 ^ 64).toNat

/-! ## Collaborators and the trace of calls -/

/-- Answers of the external libraries and of the allocator. -/
structure Env where
  load_from_file : String → Option DocPtr
  create_page : DocPtr → Int → Option PagePtr
  render_page : PagePtr → ℚ → ℚ → image
  malloc : Nat → Option BytePtr
  cairo_image_surface_create_for_data :
    BytePtr → cairo_format_t → Int → Int → Int → cairo_surface_t

/-- One call made by the shim, with its arguments (and its answer when the
shim branches on it). -/
inductive Event where
  | load_from_file (filename : String) (doc : Option DocPtr)
  | create_page (doc : DocPtr) (page_num : Int) (page : Option PagePtr)
  | set_render_hint (hint : render_hint) (value : Bool)
  | render_page (page : PagePtr) (xres yres : ℚ) (img : image)
  | malloc (size : Nat) (ptr : Option BytePtr)
  | memcpy (dst src : BytePtr) (n : Nat)
  | cairo_image_surface_create_for_data (data : BytePtr) (format : cairo_format_t)
      (width height stride : Int) (surface : cairo_surface_t)
  | cairo_save
  | cairo_scale (sx sy : ℚ)
  | cairo_set_source_surface (surface : cairo_surface_t) (x y : ℚ)
  | cairo_paint
  | cairo_restore
  | cairo_surface_destroy (surface : cairo_surface_t)
  | free (ptr : BytePtr)
  | delete_page (page : PagePtr)
  | delete_doc (doc : DocPtr)
  | fprintf_stderr (msg : String)
deriving DecidableEq, Repr

/-! ## The shim -/

/-- The local `double zoom = 1.6;`. -/
def zoom : ℚ := 1.6

/-- Embedding of `render_doc_page(uri, page_num, cr)`: the context after the
call and the calls made, in program order. -/
def render_doc_page (env : Env) (uri : String) (page_num : Int) (cr : cairo_t) :
    cairo_t × List Event :=
  let filename := uri
  match env.load_from_file filename with
  | none =>
    (cr, [Event.load_from_file filename none,
          Event.fprintf_stderr ("Unable to load document: " ++ uri ++ "\n")])
  | some doc =>
    match env.create_page doc page_num with
    | none =>
      (cr, [Event.load_from_file filename (some doc),
            Event.create_page doc page_num none,
            Event.fprintf_stderr ("Unable to create page: " ++ toString page_num ++ "\n")])
    | some page =>
      let img := env.render_page page (144.0 * zoom) (144.0 * zoom)
      let rendered : List Event :=
        [Event.load_from_file filename (some doc),
         Event.create_page doc page_num (some page),
         Event.set_render_hint render_hint.antialiasing true,
         Event.set_render_hint render_hint.text_antialiasing true,
         Event.set_render_hint render_hint.text_hinting true,
         Event.render_page page (144.0 * zoom) (144.0 * zoom) img]
      if img.is_valid then
        let width := img.width
        let height := img.height
        let stride := img.bytes_per_row
        let poppler_data := img.data
        let size := size_t_of_int (int_mul height stride)
        match env.malloc size with
        | none =>
          (cr, rendered ++
            [Event.malloc size none,
             Event.fprintf_stderr "Memory allocation failed\n"])
        | some cairo_data =>
          let surface := env.cairo_image_surface_create_for_data cairo_data
            cairo_format_t.CAIRO_FORMAT_ARGB32 width height stride
          let copied : List Event :=
            [Event.malloc size (some cairo_data),
             Event.memcpy cairo_data poppler_data size,
             Event.cairo_image_surface_create_for_data cairo_data
               cairo_format_t.CAIRO_FORMAT_ARGB32 width height stride surface]
          if cairo_surface_status surface = CAIRO_STATUS_SUCCESS then
            let cr1 := cairo_save cr
            let cr2 := cairo_scale cr1 (0.5 / zoom) (0.5 / zoom)
            let cr3 := cairo_set_source_surface cr2 surface 0 0
            let cr4 := cairo_paint cr3
            let cr5 := cairo_restore cr4
            (cr5, rendered ++ copied ++
              [Event.cairo_save,
               Event.cairo_scale (0.5 / zoom) (0.5 / zoom),
               Event.cairo_set_source_surface surface 0 0,
               Event.cairo_paint,
               Event.cairo_restore,
               Event.cairo_surface_destroy surface,
               Event.free cairo_data,
               Event.delete_page page,
               Event.delete_doc doc])
          else
            (cr, rendered ++ copied ++
              [Event.fprintf_stderr "Failed to create Cairo surface\n",
               Event.free cairo_data,
               Event.delete_page page,
               Event.delete_doc doc])
      else
        (cr, rendered ++
          [Event.fprintf_stderr "Failed to render page\n",
           Event.delete_page page,
           Event.delete_doc doc])

/-- Successive calls on one drawing context, each with the answers the
collaborators give during that call; the traces are concatenated. -/
structure Call where
  env : Env
  uri : String
  page_num : Int

/-- Run the calls of `calls` one after the other on `cr`. -/
def render_doc_pages : List Call → cairo_t → cairo_t × List Event
  | [], cr => (cr, [])
  | c :: rest, cr =>
    let first := render_doc_page c.env c.uri c.page_num cr
    let others := render_doc_pages rest first.1
    (others.1, first.2 ++ others.2)

/-! ## Reading a trace -/

/-- Calls on the target drawing context. -/
def Event.on_context : Event → Bool
  | Event.cairo_save => true
  | Event.cairo_scale _ _ => true
  | Event.cairo_set_source_surface _ _ _ => true
  | Event.cairo_paint => true
  | Event.cairo_restore => true
  | _ => false

/-- Messages written to the diagnostic stream. -/
def Event.is_diagnostic : Event → Bool
  | Event.fprintf_stderr _ => true
  | _ => false

/-- A document load that produced a handle. -/
def Event.is_doc_open : Event → Bool
  | Event.load_from_file _ (some _) => true
  | _ => false

/-- Release of a document handle. -/
def Event.is_doc_release : Event → Bool
  | Event.delete_doc _ => true
  | _ => false

/-- Any attempt to fetch a page. -/
def Event.is_page_fetch : Event → Bool
  | Event.create_page _ _ _ => true
  | _ => false

/-- A page fetch that produced a handle. -/
def Event.is_page_open : Event → Bool
  | Event.create_page _ _ (some _) => true
  | _ => false

/-- Release of a page handle. -/
def Event.is_page_release : Event → Bool
  | Event.delete_page _ => true
  | _ => false

/-- Any render attempt. -/
def Event.is_render : Event → Bool
  | Event.render_page _ _ _ _ => true
  | _ => false

/-- Any allocation request. -/
def Event.is_malloc : Event → Bool
  | Event.malloc _ _ => true
  | _ => false

/-- An allocation that produced a buffer. -/
def Event.is_buffer_alloc : Event → Bool
  | Event.malloc _ (some _) => true
  | _ => false

/-- Release of a buffer. -/
def Event.is_buffer_free : Event → Bool
  | Event.free _ => true
  | _ => false

/-- Any surface construction. -/
def Event.is_surface_create : Event → Bool
  | Event.cairo_image_surface_create_for_data _ _ _ _ _ _ => true
  | _ => false

/-- Release of a surface handle. -/
def Event.is_surface_release : Event → Bool
  | Event.cairo_surface_destroy _ => true
  | _ => false

/-- Any of the four releases that end a call. -/
def Event.is_release (e : Event) : Bool :=
  e.is_surface_release || e.is_buffer_free || e.is_page_release || e.is_doc_release

/-- The image the renderer hands back for `page` at the resolution the shim
asks for. -/
abbrev rendered (env : Env) (page : PagePtr) : image :=
  env.render_page page (144.0 * zoom) (144.0 * zoom)

/-- The byte count the shim passes to `malloc` and `memcpy` for `img`:
`height * stride` in `int`, converted to `size_t`. -/
abbrev copy_size (img : image) : Nat :=
  size_t_of_int (int_mul img.height img.bytes_per_row)

/-- The surface the drawing library builds over the copy `cairo_data` of `img`. -/
abbrev surface_over (env : Env) (cairo_data : BytePtr) (img : image) : cairo_surface_t :=
  env.cairo_image_surface_create_for_data cairo_data cairo_format_t.CAIRO_FORMAT_ARGB32
    img.width img.height img.bytes_per_row

/-- The five fallible steps of the pipeline. -/
inductive FailurePoint where
  | load
  | fetch_page
  | render
  | allocate
  | create_surface
deriving DecidableEq, Repr

/-- The first step at which the collaborators' answers make a call fail, read
off the answers alone; `none` when all five steps succeed. -/
def first_failure (env : Env) (uri : String) (page_num : Int) : Option FailurePoint :=
  match env.load_from_file uri with
  | none => some FailurePoint.load
  | some doc =>
    match env.create_page doc page_num with
    | none => some FailurePoint.fetch_page
    | some page =>
      let img := env.render_page page (144.0 * zoom) (144.0 * zoom)
      if img.is_valid then
        match env.malloc (size_t_of_int (int_mul img.height img.bytes_per_row)) with
        | none => some FailurePoint.allocate
        | some cairo_data =>
          if cairo_surface_status (env.cairo_image_surface_create_for_data cairo_data
              cairo_format_t.CAIRO_FORMAT_ARGB32 img.width img.height img.bytes_per_row)
              = CAIRO_STATUS_SUCCESS then none
          else some FailurePoint.create_surface
      else some FailurePoint.render

/-! ## A concrete world

One document, `doc.pdf`, with four pages: page 0 renders to a 4 x 3 image,
page 1 does not render, page 2 renders to an image too large to copy, page 3
renders to an image whose stride the drawing library rejects. -/

/-- Images the sample renderer produces, by page handle. -/
def sample_image (page : PagePtr) : image :=
  if page = 10 then
    { is_valid := true, width := 4, height := 3, bytes_per_row := 16, data := 4096 }
  else if page = 12 then
    { is_valid := true, width := 15000, height := 30000, bytes_per_row := 60000, data := 4096 }
  else if page = 13 then
    { is_valid := true, width := 4, height := 3, bytes_per_row := 18, data := 4096 }
  else
    { is_valid := false, width := 0, height := 0, bytes_per_row := 0, data := 0 }

/-- A sample world for the shim. -/
def sample_env : Env where
  load_from_file := fun filename => if filename = "doc.pdf" then some 1 else none
  create_page := fun _ page_num =>
    if 0 ≤ page_num ∧ page_num < 4 then some (10 + page_num.toNat) else none
  render_page := fun page _ _ => sample_image page
  malloc := fun size => if size ≤ 2 ^ 30 then some 8192 else none
  cairo_image_surface_create_for_data := fun _ _ width _ stride =>
    if stride % 4 = 0 ∧ 4 * width ≤ stride then { id := 1, status := 0 }
    else { id := 0, status := 24 }

/-- A fresh context: identity transform, default source, nothing saved,
nothing painted. -/
def fresh_cr : cairo_t :=
  { gstate := { ctm := { xx := 1, yx := 0, xy := 0, yy := 1, x0 := 0, y0 := 0 }, source := none },
    saved := [], painted := [] }

/-- Six successive calls in the sample world, one for each way a call can
end: load failure, page failure, render failure, allocation failure,
surface-creation failure, success. -/
def sample_calls : List Call :=
  [{ env := sample_env, uri := "missing.pdf", page_num := 0 },
   { env := sample_env, uri := "doc.pdf", page_num := 9 },
   { env := sample_env, uri := "doc.pdf", page_num := 1 },
   { env := sample_env, uri := "doc.pdf", page_num := 2 },
   { env := sample_env, uri := "doc.pdf", page_num := 3 },
   { env := sample_env, uri := "doc.pdf", page_num := 0 }]

/-! ## The six paths through `render_doc_page` -/

theorem path_load_failed (env : Env) (uri : String) (page_num : Int) (cr : cairo_t)
    (hdoc : env.load_from_file uri = none) :
    render_doc_page env uri page_num cr =
      (cr, [Event.load_from_file uri none,
            Event.fprintf_stderr ("Unable to load document: " ++ uri ++ "\n")]) := by
  simp only [render_doc_page, hdoc]

theorem path_page_failed (env : Env) (uri : String) (page_num : Int) (cr : cairo_t)
    (doc : DocPtr) (hdoc : env.load_from_file uri = some doc)
    (hpage : env.create_page doc page_num = none) :
    render_doc_page env uri page_num cr =
      (cr, [Event.load_from_file uri (some doc),
            Event.create_page doc page_num none,
            Event.fprintf_stderr ("Unable to create page: " ++ toString page_num ++ "\n")]) := by
  simp only [render_doc_page, hdoc, hpage]

theorem path_render_failed (env : Env) (uri : String) (page_num : Int) (cr : cairo_t)
    (doc : DocPtr) (page : PagePtr) (hdoc : env.load_from_file uri = some doc)
    (hpage : env.create_page doc page_num = some page)
    (hvalid : (rendered env page).is_valid = false) :
    render_doc_page env uri page_num cr =
      (cr, [Event.load_from_file uri (some doc),
            Event.create_page doc page_num (some page),
            Event.set_render_hint render_hint.antialiasing true,
            Event.set_render_hint render_hint.text_antialiasing true,
            Event.set_render_hint render_hint.text_hinting true,
            Event.render_page page (144.0 * zoom) (144.0 * zoom) (rendered env page),
            Event.fprintf_stderr "Failed to render page\n",
            Event.delete_page page,
            Event.delete_doc doc]) := by
  have hv : (env.render_page page (144.0 * zoom) (144.0 * zoom)).is_valid = false := hvalid
  simp only [render_doc_page, hdoc, hpage, hv]
  rfl

theorem path_alloc_failed (env : Env) (uri : String) (page_num : Int) (cr : cairo_t)
    (doc : DocPtr) (page : PagePtr) (hdoc : env.load_from_file uri = some doc)
    (hpage : env.create_page doc page_num = some page)
    (hvalid : (rendered env page).is_valid = true)
    (hbuf : env.malloc (copy_size (rendered env page)) = none) :
    render_doc_page env uri page_num cr =
      (cr, [Event.load_from_file uri (some doc),
            Event.create_page doc page_num (some page),
            Event.set_render_hint render_hint.antialiasing true,
            Event.set_render_hint render_hint.text_antialiasing true,
            Event.set_render_hint render_hint.text_hinting true,
            Event.render_page page (144.0 * zoom) (144.0 * zoom) (rendered env page),
            Event.malloc (copy_size (rendered env page)) none,
            Event.fprintf_stderr "Memory allocation failed\n"]) := by
  have hv : (env.render_page page (144.0 * zoom) (144.0 * zoom)).is_valid = true := hvalid
  have hb : env.malloc (size_t_of_int (int_mul
      (env.render_page page (144.0 * zoom) (144.0 * zoom)).height
      (env.render_page page (144.0 * zoom) (144.0 * zoom)).bytes_per_row)) = none := hbuf
  simp only [render_doc_page, hdoc, hpage, hv, hb]
  rfl

theorem path_surface_failed (env : Env) (uri : String) (page_num : Int) (cr : cairo_t)
    (doc : DocPtr) (page : PagePtr) (buf : BytePtr)
    (hdoc : env.load_from_file uri = some doc)
    (hpage : env.create_page doc page_num = some page)
    (hvalid : (rendered env page).is_valid = true)
    (hbuf : env.malloc (copy_size (rendered env page)) = some buf)
    (hsurf : cairo_surface_status (surface_over env buf (rendered env page))
      ≠ CAIRO_STATUS_SUCCESS) :
    render_doc_page env uri page_num cr =
      (cr, [Event.load_from_file uri (some doc),
            Event.create_page doc page_num (some page),
            Event.set_render_hint render_hint.antialiasing true,
            Event.set_render_hint render_hint.text_antialiasing true,
            Event.set_render_hint render_hint.text_hinting true,
            Event.render_page page (144.0 * zoom) (144.0 * zoom) (rendered env page),
            Event.malloc (copy_size (rendered env page)) (some buf),
            Event.memcpy buf (rendered env page).data (copy_size (rendered env page)),
            Event.cairo_image_surface_create_for_data buf cairo_format_t.CAIRO_FORMAT_ARGB32
              (rendered env page).width (rendered env page).height
              (rendered env page).bytes_per_row (surface_over env buf (rendered env page)),
            Event.fprintf_stderr "Failed to create Cairo surface\n",
            Event.free buf,
            Event.delete_page page,
            Event.delete_doc doc]) := by
  have hv : (env.render_page page (144.0 * zoom) (144.0 * zoom)).is_valid = true := hvalid
  have hb : env.malloc (size_t_of_int (int_mul
      (env.render_page page (144.0 * zoom) (144.0 * zoom)).height
      (env.render_page page (144.0 * zoom) (144.0 * zoom)).bytes_per_row)) = some buf := hbuf
  have hs : ¬ cairo_surface_status (env.cairo_image_surface_create_for_data buf
      cairo_format_t.CAIRO_FORMAT_ARGB32
      (env.render_page page (144.0 * zoom) (144.0 * zoom)).width
      (env.render_page page (144.0 * zoom) (144.0 * zoom)).height
      (env.render_page page (144.0 * zoom) (144.0 * zoom)).bytes_per_row)
      = CAIRO_STATUS_SUCCESS := hsurf
  simp only [render_doc_page, hdoc, hpage, hv, hb, hs]
  rfl

theorem path_success (env : Env) (uri : String) (page_num : Int) (cr : cairo_t)
    (doc : DocPtr) (page : PagePtr) (buf : BytePtr)
    (hdoc : env.load_from_file uri = some doc)
    (hpage : env.create_page doc page_num = some page)
    (hvalid : (rendered env page).is_valid = true)
    (hbuf : env.malloc (copy_size (rendered env page)) = some buf)
    (hsurf : cairo_surface_status (surface_over env buf (rendered env page))
      = CAIRO_STATUS_SUCCESS) :
    render_doc_page env uri page_num cr =
      (cairo_restore (cairo_paint (cairo_set_source_surface
          (cairo_scale (cairo_save cr) (0.5 / zoom) (0.5 / zoom))
          (surface_over env buf (rendered env page)) 0 0)),
       [Event.load_from_file uri (some doc),
        Event.create_page doc page_num (some page),
        Event.set_render_hint render_hint.antialiasing true,
        Event.set_render_hint render_hint.text_antialiasing true,
        Event.set_render_hint render_hint.text_hinting true,
        Event.render_page page (144.0 * zoom) (144.0 * zoom) (rendered env page),
        Event.malloc (copy_size (rendered env page)) (some buf),
        Event.memcpy buf (rendered env page).data (copy_size (rendered env page)),
        Event.cairo_image_surface_create_for_data buf cairo_format_t.CAIRO_FORMAT_ARGB32
          (rendered env page).width (rendered env page).height
          (rendered env page).bytes_per_row (surface_over env buf (rendered env page)),
        Event.cairo_save,
        Event.cairo_scale (0.5 / zoom) (0.5 / zoom),
        Event.cairo_set_source_surface (surface_over env buf (rendered env page)) 0 0,
        Event.cairo_paint,
        Event.cairo_restore,
        Event.cairo_surface_destroy (surface_over env buf (rendered env page)),
        Event.free buf,
        Event.delete_page page,
        Event.delete_doc doc]) := by
  have hv : (env.render_page page (144.0 * zoom) (144.0 * zoom)).is_valid = true := hvalid
  have hb : env.malloc (size_t_of_int (int_mul
      (env.render_page page (144.0 * zoom) (144.0 * zoom)).height
      (env.render_page page (144.0 * zoom) (144.0 * zoom)).bytes_per_row)) = some buf := hbuf
  have hs : cairo_surface_status (env.cairo_image_surface_create_for_data buf
      cairo_format_t.CAIRO_FORMAT_ARGB32
      (env.render_page page (144.0 * zoom) (144.0 * zoom)).width
      (env.render_page page (144.0 * zoom) (144.0 * zoom)).height
      (env.render_page page (144.0 * zoom) (144.0 * zoom)).bytes_per_row)
      = CAIRO_STATUS_SUCCESS := hsurf
  simp only [render_doc_page, hdoc, hpage, hv, hb, hs]
  rfl

/-! ## Where a call fails, read off the collaborators' answers -/

theorem first_failure_load (env : Env) (uri : String) (page_num : Int)
    (hdoc : env.load_from_file uri = none) :
    first_failure env uri page_num = some FailurePoint.load := by
  simp only [first_failure, hdoc]

theorem first_failure_fetch_page (env : Env) (uri : String) (page_num : Int)
    (doc : DocPtr) (hdoc : env.load_from_file uri = some doc)
    (hpage : env.create_page doc page_num = none) :
    first_failure env uri page_num = some FailurePoint.fetch_page := by
  simp only [first_failure, hdoc, hpage]

theorem first_failure_render (env : Env) (uri : String) (page_num : Int)
    (doc : DocPtr) (page : PagePtr) (hdoc : env.load_from_file uri = some doc)
    (hpage : env.create_page doc page_num = some page)
    (hvalid : (rendered env page).is_valid = false) :
    first_failure env uri page_num = some FailurePoint.render := by
  have hv : (env.render_page page (144.0 * zoom) (144.0 * zoom)).is_valid = false := hvalid
  simp only [first_failure, hdoc, hpage, hv]
  rfl

theorem first_failure_allocate (env : Env) (uri : String) (page_num : Int)
    (doc : DocPtr) (page : PagePtr) (hdoc : env.load_from_file uri = some doc)
    (hpage : env.create_page doc page_num = some page)
    (hvalid : (rendered env page).is_valid = true)
    (hbuf : env.malloc (copy_size (rendered env page)) = none) :
    first_failure env uri page_num = some FailurePoint.allocate := by
  have hv : (env.render_page page (144.0 * zoom) (144.0 * zoom)).is_valid = true := hvalid
  have hb : env.malloc (size_t_of_int (int_mul
      (env.render_page page (144.0 * zoom) (144.0 * zoom)).height
      (env.render_page page (144.0 * zoom) (144.0 * zoom)).bytes_per_row)) = none := hbuf
  simp only [first_failure, hdoc, hpage, hv, hb]
  rfl

theorem first_failure_create_surface (env : Env) (uri : String) (page_num : Int)
    (doc : DocPtr) (page : PagePtr) (buf : BytePtr)
    (hdoc : env.load_from_file uri = some doc)
    (hpage : env.create_page doc page_num = some page)
    (hvalid : (rendered env page).is_valid = true)
    (hbuf : env.malloc (copy_size (rendered env page)) = some buf)
    (hsurf : cairo_surface_status (surface_over env buf (rendered env page))
      ≠ CAIRO_STATUS_SUCCESS) :
    first_failure env uri page_num = some FailurePoint.create_surface := by
  have hv : (env.render_page page (144.0 * zoom) (144.0 * zoom)).is_valid = true := hvalid
  have hb : env.malloc (size_t_of_int (int_mul
      (env.render_page page (144.0 * zoom) (144.0 * zoom)).height
      (env.render_page page (144.0 * zoom) (144.0 * zoom)).bytes_per_row)) = some buf := hbuf
  have hs : ¬ cairo_surface_status (env.cairo_image_surface_create_for_data buf
      cairo_format_t.CAIRO_FORMAT_ARGB32
      (env.render_page page (144.0 * zoom) (144.0 * zoom)).width
      (env.render_page page (144.0 * zoom) (144.0 * zoom)).height
      (env.render_page page (144.0 * zoom) (144.0 * zoom)).bytes_per_row)
      = CAIRO_STATUS_SUCCESS := hsurf
  simp only [first_failure, hdoc, hpage, hv, hb, hs]
  rfl

theorem first_failure_none (env : Env) (uri : String) (page_num : Int)
    (doc : DocPtr) (page : PagePtr) (buf : BytePtr)
    (hdoc : env.load_from_file uri = some doc)
    (hpage : env.create_page doc page_num = some page)
    (hvalid : (rendered env page).is_valid = true)
    (hbuf : env.malloc (copy_size (rendered env page)) = some buf)
    (hsurf : cairo_surface_status (surface_over env buf (rendered env page))
      = CAIRO_STATUS_SUCCESS) :
    first_failure env uri page_num = none := by
  have hv : (env.render_page page (144.0 * zoom) (144.0 * zoom)).is_valid = true := hvalid
  have hb : env.malloc (size_t_of_int (int_mul
      (env.render_page page (144.0 * zoom) (144.0 * zoom)).height
      (env.render_page page (144.0 * zoom) (144.0 * zoom)).bytes_per_row)) = some buf := hbuf
  have hs : cairo_surface_status (env.cairo_image_surface_create_for_data buf
      cairo_format_t.CAIRO_FORMAT_ARGB32
      (env.render_page page (144.0 * zoom) (144.0 * zoom)).width
      (env.render_page page (144.0 * zoom) (144.0 * zoom)).height
      (env.render_page page (144.0 * zoom) (144.0 * zoom)).bytes_per_row)
      = CAIRO_STATUS_SUCCESS := hsurf
  simp only [first_failure, hdoc, hpage, hv, hb, hs]
  rfl

/-- Saving, changing the transform and the source, painting, then restoring
brings back the graphics state and the stack of saved states; only the list
of composited sources has grown by one. -/
theorem save_scale_paint_restore (cr : cairo_t) (surface : cairo_surface_t) (sx sy x y : ℚ) :
    cairo_restore (cairo_paint (cairo_set_source_surface
        (cairo_scale (cairo_save cr) sx sy) surface x y)) =
      { cr with painted := cr.painted ++
          [some { surface := surface, x := x, y := y,
                  user_space := cairo_matrix_scale cr.gstate.ctm sx sy }] } := by
  simp [cairo_restore, cairo_paint, cairo_set_source_surface, cairo_scale, cairo_save]

/-! ## Claims -/

/-- C1: when the document loads, the page is created, the rendered image is
valid, the copy buffer is allocated and the surface is created, the call issues
exactly one paint on the target context (between one save, one scale, one
set-source and one restore), composites exactly one more source, and leaves the
graphics state (transform and source) and the stack of saved states as they
were before the call. -/
theorem successful_call_paints_once_and_restores
    (env : Env) (uri : String) (page_num : Int) (cr : cairo_t)
    (doc : DocPtr) (page : PagePtr) (buf : BytePtr)
    (hdoc : env.load_from_file uri = some doc)
    (hpage : env.create_page doc page_num = some page)
    (hvalid : (rendered env page).is_valid = true)
    (hbuf : env.malloc (copy_size (rendered env page)) = some buf)
    (hsurf : cairo_surface_status (surface_over env buf (rendered env page))
      = CAIRO_STATUS_SUCCESS) :
    (render_doc_page env uri page_num cr).2.count Event.cairo_paint = 1 ∧
    (render_doc_page env uri page_num cr).2.filter Event.on_context =
      [Event.cairo_save, Event.cairo_scale (0.5 / zoom) (0.5 / zoom),
       Event.cairo_set_source_surface (surface_over env buf (rendered env page)) 0 0,
       Event.cairo_paint, Event.cairo_restore] ∧
    (render_doc_page env uri page_num cr).1.gstate = cr.gstate ∧
    (render_doc_page env uri page_num cr).1.saved = cr.saved ∧
    (render_doc_page env uri page_num cr).1.painted.length = cr.painted.length + 1 := by
  rw [path_success env uri page_num cr doc page buf hdoc hpage hvalid hbuf hsurf,
    save_scale_paint_restore]
  refine ⟨?_, ?_, rfl, rfl, ?_⟩
  · simp [List.count_cons]
  · simp [List.filter, Event.on_context]
  · simp

/-- Witness for C1: page 0 of `doc.pdf` in the sample world, on a fresh context. -/
theorem successful_call_paints_once_and_restores_witness :
    (render_doc_page sample_env "doc.pdf" 0 fresh_cr).2.count Event.cairo_paint = 1 ∧
    (render_doc_page sample_env "doc.pdf" 0 fresh_cr).2.filter Event.on_context =
      [Event.cairo_save, Event.cairo_scale (0.5 / zoom) (0.5 / zoom),
       Event.cairo_set_source_surface (surface_over sample_env 8192 (rendered sample_env 10)) 0 0,
       Event.cairo_paint, Event.cairo_restore] ∧
    (render_doc_page sample_env "doc.pdf" 0 fresh_cr).1.gstate = fresh_cr.gstate ∧
    (render_doc_page sample_env "doc.pdf" 0 fresh_cr).1.saved = fresh_cr.saved ∧
    (render_doc_page sample_env "doc.pdf" 0 fresh_cr).1.painted.length
      = fresh_cr.painted.length + 1 :=
  successful_call_paints_once_and_restores sample_env "doc.pdf" 0 fresh_cr 1 10 8192
    (by decide) (by decide) (by decide) (by decide) (by decide)

/-- C2: a call that fails at one of the five failure points (load, page
fetch, invalid image, allocation, surface creation) performs no operation on
the target context, hands the context back unchanged, and writes a diagnostic
message; and a paint is issued exactly when all five steps succeed. -/
theorem failed_call_leaves_context_untouched
    (env : Env) (uri : String) (page_num : Int) (cr : cairo_t) :
    (first_failure env uri page_num ≠ none →
      (render_doc_page env uri page_num cr).2.filter Event.on_context = [] ∧
      (render_doc_page env uri page_num cr).1 = cr ∧
      ∃ msg, Event.fprintf_stderr msg ∈ (render_doc_page env uri page_num cr).2) ∧
    (Event.cairo_paint ∈ (render_doc_page env uri page_num cr).2 ↔
      first_failure env uri page_num = none) := by
  cases hdoc : env.load_from_file uri with
  | none =>
    rw [path_load_failed env uri page_num cr hdoc, first_failure_load env uri page_num hdoc]
    simp [List.filter, Event.on_context]
  | some doc =>
    cases hpage : env.create_page doc page_num with
    | none =>
      rw [path_page_failed env uri page_num cr doc hdoc hpage,
        first_failure_fetch_page env uri page_num doc hdoc hpage]
      simp [List.filter, Event.on_context]
    | some page =>
      cases hvalid : (rendered env page).is_valid with
      | false =>
        rw [path_render_failed env uri page_num cr doc page hdoc hpage hvalid,
          first_failure_render env uri page_num doc page hdoc hpage hvalid]
        simp [List.filter, Event.on_context]
      | true =>
        cases hbuf : env.malloc (copy_size (rendered env page)) with
        | none =>
          rw [path_alloc_failed env uri page_num cr doc page hdoc hpage hvalid hbuf,
            first_failure_allocate env uri page_num doc page hdoc hpage hvalid hbuf]
          simp [List.filter, Event.on_context]
        | some buf =>
          by_cases hsurf : cairo_surface_status (surface_over env buf (rendered env page))
              = CAIRO_STATUS_SUCCESS
          · rw [path_success env uri page_num cr doc page buf hdoc hpage hvalid hbuf hsurf,
              first_failure_none env uri page_num doc page buf hdoc hpage hvalid hbuf hsurf]
            simp
          · rw [path_surface_failed env uri page_num cr doc page buf hdoc hpage hvalid hbuf hsurf,
              first_failure_create_surface env uri page_num doc page buf hdoc hpage hvalid
                hbuf hsurf]
            simp [List.filter, Event.on_context]

/-- Witness for C2: page 3 of `doc.pdf` in the sample world fails at surface
creation. -/
theorem failed_call_leaves_context_untouched_witness :
    first_failure sample_env "doc.pdf" 3 ≠ none ∧
    ((render_doc_page sample_env "doc.pdf" 3 fresh_cr).2.filter Event.on_context = [] ∧
      (render_doc_page sample_env "doc.pdf" 3 fresh_cr).1 = fresh_cr ∧
      ∃ msg, Event.fprintf_stderr msg ∈ (render_doc_page sample_env "doc.pdf" 3 fresh_cr).2) :=
  ⟨by decide,
   (failed_call_leaves_context_untouched sample_env "doc.pdf" 3 fresh_cr).1 (by decide)⟩

/-- C3: a call that obtained a document handle and a page handle and exits by
success, by render failure or by surface-creation failure releases the page
handle once and the document handle once, the page first: the releases of
page and document handles in the trace are exactly `delete page; delete doc`. -/
theorem handles_released_once_page_first
    (env : Env) (uri : String) (page_num : Int) (cr : cairo_t)
    (doc : DocPtr) (page : PagePtr)
    (hdoc : env.load_from_file uri = some doc)
    (hpage : env.create_page doc page_num = some page)
    (hexit : first_failure env uri page_num = none ∨
      first_failure env uri page_num = some FailurePoint.render ∨
      first_failure env uri page_num = some FailurePoint.create_surface) :
    (render_doc_page env uri page_num cr).2.filter
        (fun e => e.is_page_release || e.is_doc_release) =
      [Event.delete_page page, Event.delete_doc doc] ∧
    (render_doc_page env uri page_num cr).2.count (Event.delete_page page) = 1 ∧
    (render_doc_page env uri page_num cr).2.count (Event.delete_doc doc) = 1 ∧
    ∃ before, (render_doc_page env uri page_num cr).2 =
      before ++ [Event.delete_page page, Event.delete_doc doc] := by
  cases hvalid : (rendered env page).is_valid with
  | false =>
    rw [path_render_failed env uri page_num cr doc page hdoc hpage hvalid]
    refine ⟨?_, ?_, ?_, ?_⟩
    · simp [List.filter, Event.is_page_release, Event.is_doc_release]
    · simp [List.count_cons]
    · simp [List.count_cons]
    · exact ⟨[Event.load_from_file uri (some doc),
        Event.create_page doc page_num (some page),
        Event.set_render_hint render_hint.antialiasing true,
        Event.set_render_hint render_hint.text_antialiasing true,
        Event.set_render_hint render_hint.text_hinting true,
        Event.render_page page (144.0 * zoom) (144.0 * zoom) (rendered env page),
        Event.fprintf_stderr "Failed to render page\n"], rfl⟩
  | true =>
    cases hbuf : env.malloc (copy_size (rendered env page)) with
    | none =>
      rw [first_failure_allocate env uri page_num doc page hdoc hpage hvalid hbuf] at hexit
      simp at hexit
    | some buf =>
      by_cases hsurf : cairo_surface_status (surface_over env buf (rendered env page))
          = CAIRO_STATUS_SUCCESS
      · rw [path_success env uri page_num cr doc page buf hdoc hpage hvalid hbuf hsurf]
        refine ⟨?_, ?_, ?_, ?_⟩
        · simp [List.filter, Event.is_page_release, Event.is_doc_release]
        · simp [List.count_cons]
        · simp [List.count_cons]
        · exact ⟨[Event.load_from_file uri (some doc),
            Event.create_page doc page_num (some page),
            Event.set_render_hint render_hint.antialiasing true,
            Event.set_render_hint render_hint.text_antialiasing true,
            Event.set_render_hint render_hint.text_hinting true,
            Event.render_page page (144.0 * zoom) (144.0 * zoom) (rendered env page),
            Event.malloc (copy_size (rendered env page)) (some buf),
            Event.memcpy buf (rendered env page).data (copy_size (rendered env page)),
            Event.cairo_image_surface_create_for_data buf cairo_format_t.CAIRO_FORMAT_ARGB32
              (rendered env page).width (rendered env page).height
              (rendered env page).bytes_per_row (surface_over env buf (rendered env page)),
            Event.cairo_save,
            Event.cairo_scale (0.5 / zoom) (0.5 / zoom),
            Event.cairo_set_source_surface (surface_over env buf (rendered env page)) 0 0,
            Event.cairo_paint,
            Event.cairo_restore,
            Event.cairo_surface_destroy (surface_over env buf (rendered env page)),
            Event.free buf], rfl⟩
      · rw [path_surface_failed env uri page_num cr doc page buf hdoc hpage hvalid hbuf hsurf]
        refine ⟨?_, ?_, ?_, ?_⟩
        · simp [List.filter, Event.is_page_release, Event.is_doc_release]
        · simp [List.count_cons]
        · simp [List.count_cons]
        · exact ⟨[Event.load_from_file uri (some doc),
            Event.create_page doc page_num (some page),
            Event.set_render_hint render_hint.antialiasing true,
            Event.set_render_hint render_hint.text_antialiasing true,
            Event.set_render_hint render_hint.text_hinting true,
            Event.render_page page (144.0 * zoom) (144.0 * zoom) (rendered env page),
            Event.malloc (copy_size (rendered env page)) (some buf),
            Event.memcpy buf (rendered env page).data (copy_size (rendered env page)),
            Event.cairo_image_surface_create_for_data buf cairo_format_t.CAIRO_FORMAT_ARGB32
              (rendered env page).width (rendered env page).height
              (rendered env page).bytes_per_row (surface_over env buf (rendered env page)),
            Event.fprintf_stderr "Failed to create Cairo surface\n",
            Event.free buf], rfl⟩

/-- Witness for C3: page 1 of `doc.pdf` in the sample world exits by render
failure. -/
theorem handles_released_once_page_first_witness :
    (render_doc_page sample_env "doc.pdf" 1 fresh_cr).2.filter
        (fun e => e.is_page_release || e.is_doc_release) =
      [Event.delete_page 11, Event.delete_doc 1] ∧
    (render_doc_page sample_env "doc.pdf" 1 fresh_cr).2.count (Event.delete_page 11) = 1 ∧
    (render_doc_page sample_env "doc.pdf" 1 fresh_cr).2.count (Event.delete_doc 1) = 1 ∧
    ∃ before, (render_doc_page sample_env "doc.pdf" 1 fresh_cr).2 =
      before ++ [Event.delete_page 11, Event.delete_doc 1] :=
  handles_released_once_page_first sample_env "doc.pdf" 1 fresh_cr 1 11
    (by decide) (by decide) (Or.inr (Or.inl (by decide)))

/-- C7: when the document cannot be loaded the call only tries the load and
writes one message, which contains the given path; it fetches no page, renders
nothing, allocates nothing, creates no surface, does nothing on the context,
and holds no document handle. -/
theorem load_failure_touches_nothing
    (env : Env) (uri : String) (page_num : Int) (cr : cairo_t)
    (hdoc : env.load_from_file uri = none) :
    (render_doc_page env uri page_num cr).2 =
      [Event.load_from_file uri none,
       Event.fprintf_stderr ("Unable to load document: " ++ uri ++ "\n")] ∧
    (∃ before after,
      Event.fprintf_stderr (before ++ uri ++ after) ∈ (render_doc_page env uri page_num cr).2) ∧
    (∀ e ∈ (render_doc_page env uri page_num cr).2,
      e.is_doc_open = false ∧ e.is_page_fetch = false ∧ e.is_render = false ∧
      e.is_malloc = false ∧ e.is_surface_create = false ∧ e.on_context = false) ∧
    (render_doc_page env uri page_num cr).1 = cr := by
  rw [path_load_failed env uri page_num cr hdoc]
  refine ⟨rfl, ⟨"Unable to load document: ", "\n", ?_⟩, ?_, rfl⟩
  · simp
  · intro e he
    simp only [List.mem_cons, List.mem_singleton, List.not_mem_nil, or_false] at he
    rcases he with rfl | rfl <;>
      simp [Event.is_doc_open, Event.is_page_fetch, Event.is_render, Event.is_malloc,
        Event.is_surface_create, Event.on_context]

/-- Witness for C7: `missing.pdf` does not load in the sample world. -/
theorem load_failure_touches_nothing_witness :
    (render_doc_page sample_env "missing.pdf" 0 fresh_cr).2 =
      [Event.load_from_file "missing.pdf" none,
       Event.fprintf_stderr ("Unable to load document: " ++ "missing.pdf" ++ "\n")] ∧
    (∃ before after, Event.fprintf_stderr (before ++ "missing.pdf" ++ after) ∈
      (render_doc_page sample_env "missing.pdf" 0 fresh_cr).2) ∧
    (∀ e ∈ (render_doc_page sample_env "missing.pdf" 0 fresh_cr).2,
      e.is_doc_open = false ∧ e.is_page_fetch = false ∧ e.is_render = false ∧
      e.is_malloc = false ∧ e.is_surface_create = false ∧ e.on_context = false) ∧
    (render_doc_page sample_env "missing.pdf" 0 fresh_cr).1 = fresh_cr :=
  load_failure_touches_nothing sample_env "missing.pdf" 0 fresh_cr (by decide)

/-- C10: when surface creation succeeds the call ends with paint, restore and
then, in this order, release of the surface, free of the copied buffer,
release of the page, release of the document; nothing before that tail is a
release, so each of the four happens exactly once and the buffer is not freed
before the surface over it is released. -/
theorem cleanup_order_after_paint
    (env : Env) (uri : String) (page_num : Int) (cr : cairo_t)
    (doc : DocPtr) (page : PagePtr) (buf : BytePtr)
    (hdoc : env.load_from_file uri = some doc)
    (hpage : env.create_page doc page_num = some page)
    (hvalid : (rendered env page).is_valid = true)
    (hbuf : env.malloc (copy_size (rendered env page)) = some buf)
    (hsurf : cairo_surface_status (surface_over env buf (rendered env page))
      = CAIRO_STATUS_SUCCESS) :
    (∃ before, (render_doc_page env uri page_num cr).2 =
        before ++ [Event.cairo_paint, Event.cairo_restore,
          Event.cairo_surface_destroy (surface_over env buf (rendered env page)),
          Event.free buf, Event.delete_page page, Event.delete_doc doc] ∧
        ∀ e ∈ before, e.is_release = false) ∧
    (render_doc_page env uri page_num cr).2.filter Event.is_release =
      [Event.cairo_surface_destroy (surface_over env buf (rendered env page)),
       Event.free buf, Event.delete_page page, Event.delete_doc doc] := by
  rw [path_success env uri page_num cr doc page buf hdoc hpage hvalid hbuf hsurf]
  refine ⟨⟨[Event.load_from_file uri (some doc),
      Event.create_page doc page_num (some page),
      Event.set_render_hint render_hint.antialiasing true,
      Event.set_render_hint render_hint.text_antialiasing true,
      Event.set_render_hint render_hint.text_hinting true,
      Event.render_page page (144.0 * zoom) (144.0 * zoom) (rendered env page),
      Event.malloc (copy_size (rendered env page)) (some buf),
      Event.memcpy buf (rendered env page).data (copy_size (rendered env page)),
      Event.cairo_image_surface_create_for_data buf cairo_format_t.CAIRO_FORMAT_ARGB32
        (rendered env page).width (rendered env page).height
        (rendered env page).bytes_per_row (surface_over env buf (rendered env page)),
      Event.cairo_save,
      Event.cairo_scale (0.5 / zoom) (0.5 / zoom),
      Event.cairo_set_source_surface (surface_over env buf (rendered env page)) 0 0],
      rfl, ?_⟩, ?_⟩
  · intro e he
    simp only [List.mem_cons, List.mem_singleton, List.not_mem_nil, or_false] at he
    rcases he with rfl | rfl | rfl | rfl | rfl | rfl | rfl | rfl | rfl | rfl | rfl | rfl <;>
      simp [Event.is_release, Event.is_surface_release, Event.is_buffer_free,
        Event.is_page_release, Event.is_doc_release]
  · simp [List.filter, Event.is_release, Event.is_surface_release, Event.is_buffer_free,
      Event.is_page_release, Event.is_doc_release]

/-- Witness for C10: page 0 of `doc.pdf` in the sample world. -/
theorem cleanup_order_after_paint_witness :
    (∃ before, (render_doc_page sample_env "doc.pdf" 0 fresh_cr).2 =
        before ++ [Event.cairo_paint, Event.cairo_restore,
          Event.cairo_surface_destroy (surface_over sample_env 8192 (rendered sample_env 10)),
          Event.free 8192, Event.delete_page 10, Event.delete_doc 1] ∧
        ∀ e ∈ before, e.is_release = false) ∧
    (render_doc_page sample_env "doc.pdf" 0 fresh_cr).2.filter Event.is_release =
      [Event.cairo_surface_destroy (surface_over sample_env 8192 (rendered sample_env 10)),
       Event.free 8192, Event.delete_page 10, Event.delete_doc 1] :=
  cleanup_order_after_paint sample_env "doc.pdf" 0 fresh_cr 1 10 8192
    (by decide) (by decide) (by decide) (by decide) (by decide)

/-- The resolution the shim asks for, as an exact rational. -/
theorem render_resolution : (144.0 * zoom : ℚ) = 230.4 := by
  norm_num [zoom]

/-- The scale the shim paints under, as an exact rational. -/
theorem paint_scale : (0.5 / zoom : ℚ) = 5 / 16 := by
  norm_num [zoom]

/-- C8: with `double` read as exact rational arithmetic, the page is rendered
at 144 * 1.6 = 230.4 DPI on both axes, and that is the only render; on success
the scale applied is 0.5 / 1.6 = 5/16 on both axes, the one source composited
is the surface at the origin of the caller's user space scaled by 5/16, so the
image's width and height edges cover `width * (0.5/1.6)` and
`height * (0.5/1.6)` of the caller's user space; zoom times paint scale is
exactly 1/2. -/
theorem oversample_and_paint_scale
    (env : Env) (uri : String) (page_num : Int) (cr : cairo_t)
    (doc : DocPtr) (page : PagePtr)
    (hdoc : env.load_from_file uri = some doc)
    (hpage : env.create_page doc page_num = some page) :
    (144.0 * zoom : ℚ) = 230.4 ∧ (0.5 / zoom : ℚ) = 5 / 16 ∧ zoom * (0.5 / zoom) = 1 / 2 ∧
    (render_doc_page env uri page_num cr).2.filter Event.is_render =
      [Event.render_page page 230.4 230.4 (rendered env page)] ∧
    (∀ buf : BytePtr, (rendered env page).is_valid = true →
      env.malloc (copy_size (rendered env page)) = some buf →
      cairo_surface_status (surface_over env buf (rendered env page)) = CAIRO_STATUS_SUCCESS →
      Event.cairo_scale (5 / 16) (5 / 16) ∈ (render_doc_page env uri page_num cr).2 ∧
      (render_doc_page env uri page_num cr).1.painted = cr.painted ++
        [some { surface := surface_over env buf (rendered env page), x := 0, y := 0,
                user_space := cairo_matrix_scale cr.gstate.ctm (5 / 16) (5 / 16) }] ∧
      cairo_matrix_transform_distance (cairo_matrix_scale cr.gstate.ctm (5 / 16) (5 / 16))
          (rendered env page).width 0 =
        cairo_matrix_transform_distance cr.gstate.ctm
          ((rendered env page).width * (0.5 / 1.6)) 0 ∧
      cairo_matrix_transform_distance (cairo_matrix_scale cr.gstate.ctm (5 / 16) (5 / 16))
          0 (rendered env page).height =
        cairo_matrix_transform_distance cr.gstate.ctm
          0 ((rendered env page).height * (0.5 / 1.6))) := by
  have hres := render_resolution
  have hscale := paint_scale
  refine ⟨hres, hscale, by norm_num [zoom], ?_, ?_⟩
  · cases hvalid : (rendered env page).is_valid with
    | false =>
      rw [path_render_failed env uri page_num cr doc page hdoc hpage hvalid, hres]
      simp [List.filter, Event.is_render]
    | true =>
      cases hbuf : env.malloc (copy_size (rendered env page)) with
      | none =>
        rw [path_alloc_failed env uri page_num cr doc page hdoc hpage hvalid hbuf, hres]
        simp [List.filter, Event.is_render]
      | some buf =>
        by_cases hsurf : cairo_surface_status (surface_over env buf (rendered env page))
            = CAIRO_STATUS_SUCCESS
        · rw [path_success env uri page_num cr doc page buf hdoc hpage hvalid hbuf hsurf, hres]
          simp [List.filter, Event.is_render]
        · rw [path_surface_failed env uri page_num cr doc page buf hdoc hpage hvalid hbuf
            hsurf, hres]
          simp [List.filter, Event.is_render]
  · intro buf hvalid hbuf hsurf
    rw [path_success env uri page_num cr doc page buf hdoc hpage hvalid hbuf hsurf,
      save_scale_paint_restore, hscale]
    refine ⟨by simp, rfl, ?_, ?_⟩
    · simp only [cairo_matrix_transform_distance, cairo_matrix_scale, Prod.mk.injEq]
      constructor <;> ring
    · simp only [cairo_matrix_transform_distance, cairo_matrix_scale, Prod.mk.injEq]
      constructor <;> ring

/-- Witness for C8: page 0 of `doc.pdf` in the sample world; the 4 x 3 image
covers 5/4 by 15/16 of the caller's user space. -/
theorem oversample_and_paint_scale_witness :
    (render_doc_page sample_env "doc.pdf" 0 fresh_cr).2.filter Event.is_render =
      [Event.render_page 10 230.4 230.4 (rendered sample_env 10)] ∧
    (render_doc_page sample_env "doc.pdf" 0 fresh_cr).1.painted = fresh_cr.painted ++
      [some { surface := surface_over sample_env 8192 (rendered sample_env 10), x := 0, y := 0,
              user_space := cairo_matrix_scale fresh_cr.gstate.ctm (5 / 16) (5 / 16) }] ∧
    cairo_matrix_transform_distance (cairo_matrix_scale fresh_cr.gstate.ctm (5 / 16) (5 / 16))
        (rendered sample_env 10).width 0 =
      cairo_matrix_transform_distance fresh_cr.gstate.ctm
        ((rendered sample_env 10).width * (0.5 / 1.6)) 0 :=
  have h := oversample_and_paint_scale sample_env "doc.pdf" 0 fresh_cr 1 10
    (by decide) (by decide)
  have hs := h.2.2.2.2 8192 (by decide) (by decide) (by decide)
  ⟨h.2.2.2.1, hs.2.1, hs.2.2.1⟩

/-- Whatever the world, a call whose page fetch fails never releases the
document it loaded. -/
theorem page_failure_never_releases_document
    (env : Env) (uri : String) (page_num : Int) (cr : cairo_t) (doc : DocPtr)
    (hdoc : env.load_from_file uri = some doc)
    (hpage : env.create_page doc page_num = none) :
    (render_doc_page env uri page_num cr).2.filter Event.is_doc_open =
      [Event.load_from_file uri (some doc)] ∧
    (render_doc_page env uri page_num cr).2.filter Event.is_doc_release = [] := by
  rw [path_page_failed env uri page_num cr doc hdoc hpage]
  simp [List.filter, Event.is_doc_open, Event.is_doc_release]

/-- Whatever the world, a call whose allocation fails releases neither the
page nor the document it holds. -/
theorem alloc_failure_never_releases_handles
    (env : Env) (uri : String) (page_num : Int) (cr : cairo_t)
    (doc : DocPtr) (page : PagePtr)
    (hdoc : env.load_from_file uri = some doc)
    (hpage : env.create_page doc page_num = some page)
    (hvalid : (rendered env page).is_valid = true)
    (hbuf : env.malloc (copy_size (rendered env page)) = none) :
    (render_doc_page env uri page_num cr).2.filter
      (fun e => e.is_page_release || e.is_doc_release) = [] := by
  rw [path_alloc_failed env uri page_num cr doc page hdoc hpage hvalid hbuf]
  simp [List.filter, Event.is_page_release, Event.is_doc_release]

/-- Every call frees exactly the buffers it allocated. -/
theorem buffers_balanced (env : Env) (uri : String) (page_num : Int) (cr : cairo_t) :
    (render_doc_page env uri page_num cr).2.countP Event.is_buffer_alloc =
      (render_doc_page env uri page_num cr).2.countP Event.is_buffer_free := by
  cases hdoc : env.load_from_file uri with
  | none =>
    rw [path_load_failed env uri page_num cr hdoc]
    simp [List.countP_cons, Event.is_buffer_alloc, Event.is_buffer_free]
  | some doc =>
    cases hpage : env.create_page doc page_num with
    | none =>
      rw [path_page_failed env uri page_num cr doc hdoc hpage]
      simp [List.countP_cons, Event.is_buffer_alloc, Event.is_buffer_free]
    | some page =>
      cases hvalid : (rendered env page).is_valid with
      | false =>
        rw [path_render_failed env uri page_num cr doc page hdoc hpage hvalid]
        simp [List.countP_cons, Event.is_buffer_alloc, Event.is_buffer_free]
      | true =>
        cases hbuf : env.malloc (copy_size (rendered env page)) with
        | none =>
          rw [path_alloc_failed env uri page_num cr doc page hdoc hpage hvalid hbuf]
          simp [List.countP_cons, Event.is_buffer_alloc, Event.is_buffer_free]
        | some buf =>
          by_cases hsurf : cairo_surface_status (surface_over env buf (rendered env page))
              = CAIRO_STATUS_SUCCESS
          · rw [path_success env uri page_num cr doc page buf hdoc hpage hvalid hbuf hsurf]
            simp [List.countP_cons, Event.is_buffer_alloc, Event.is_buffer_free]
          · rw [path_surface_failed env uri page_num cr doc page buf hdoc hpage hvalid hbuf
              hsurf]
            simp [List.countP_cons, Event.is_buffer_alloc, Event.is_buffer_free]

/-- C4 (the code at a failing input): page 9 of the four-page `doc.pdf` cannot
be created; no render is attempted and the message names the index, but the
document handle 1 that was loaded is not released before the call returns. -/
theorem page_failure_leaks_document :
    first_failure sample_env "doc.pdf" 9 = some FailurePoint.fetch_page ∧
    (render_doc_page sample_env "doc.pdf" 9 fresh_cr).2 =
      [Event.load_from_file "doc.pdf" (some 1),
       Event.create_page 1 9 none,
       Event.fprintf_stderr "Unable to create page: 9\n"] ∧
    (render_doc_page sample_env "doc.pdf" 9 fresh_cr).2.filter Event.is_render = [] ∧
    (render_doc_page sample_env "doc.pdf" 9 fresh_cr).2.filter Event.is_doc_open =
      [Event.load_from_file "doc.pdf" (some 1)] ∧
    (render_doc_page sample_env "doc.pdf" 9 fresh_cr).2.filter Event.is_doc_release = [] := by
  decide

/-- C5 (the code at a failing input): page 2 of `doc.pdf` renders to a valid
30000-row image of stride 60000 whose 1.8 GB copy cannot be allocated; the message is
written and nothing is painted, but neither the page handle 12 nor the document
handle 1 is released before the call returns. -/
theorem alloc_failure_leaks_page_and_document :
    first_failure sample_env "doc.pdf" 2 = some FailurePoint.allocate ∧
    Event.fprintf_stderr "Memory allocation failed\n" ∈
      (render_doc_page sample_env "doc.pdf" 2 fresh_cr).2 ∧
    Event.cairo_paint ∉ (render_doc_page sample_env "doc.pdf" 2 fresh_cr).2 ∧
    (render_doc_page sample_env "doc.pdf" 2 fresh_cr).2.filter Event.is_doc_open =
      [Event.load_from_file "doc.pdf" (some 1)] ∧
    (render_doc_page sample_env "doc.pdf" 2 fresh_cr).2.filter Event.is_page_open =
      [Event.create_page 1 2 (some 12)] ∧
    (render_doc_page sample_env "doc.pdf" 2 fresh_cr).2.filter
      (fun e => e.is_page_release || e.is_doc_release) = [] := by
  decide

/-- C6 (the code at a failing input): over six successive calls, one per way a
call can end, five documents are opened and three released, four pages are
created and three released; only the copy buffers balance (two allocated, two
freed). -/
theorem call_sequence_leaks_handles :
    (render_doc_pages sample_calls fresh_cr).2.countP Event.is_doc_open = 5 ∧
    (render_doc_pages sample_calls fresh_cr).2.countP Event.is_doc_release = 3 ∧
    (render_doc_pages sample_calls fresh_cr).2.countP Event.is_page_open = 4 ∧
    (render_doc_pages sample_calls fresh_cr).2.countP Event.is_page_release = 3 ∧
    (render_doc_pages sample_calls fresh_cr).2.countP Event.is_buffer_alloc = 2 ∧
    (render_doc_pages sample_calls fresh_cr).2.countP Event.is_buffer_free = 2 := by
  decide

end Scrolex
